import Mathlib

/-!
# Verification of the Weather Chaser core algorithms

Shallow embedding of the algorithmic core of `src/app.js` (class `WeatherChaser`,
both deployment variants; the second variant starts at line 1231):

* the weather scorer (`calculateScores`, `calculateTempScore`, `average`, `sum`),
* the grid generator (`generateGridFromCenter`),
* the greedy route planner (`optimizeRoute`, `findNextBestLocation`).

JavaScript numbers are modelled as exact rationals (`ℚ`).  `Math.round` is
`jsRound` (floor of `x + 1/2`, which matches JS round-half-up including at
negative halves).  The two transcendental operations of the source —
`Math.sqrt(gridSize)` and `Math.cos(centerLat·π/180)` in
`generateGridFromCenter`, and the haversine `calculateDistance` in the route
planner — are kept as explicit parameters (`gridDim`, `cosCenterLat`, `dist`):
an IEEE-754 double is an exact rational, so instantiating the parameter with
that rational reproduces the source computation exactly, and theorems
quantifying over the parameter cover every possible value.
-/

namespace WeatherChaser

/-- JS `Math.round`: round half up, `Math.round x = ⌊x + 1/2⌋`. -/
def jsRound (q : ℚ) : ℤ := ⌊q + 1/2⌋

/-- `Math.round(x * 10) / 10`: round to one decimal place, as in
`calculateScores` (src/app.js:415). -/
def round1 (q : ℚ) : ℚ := (jsRound (q * 10) : ℚ) / 10

/-- The `data.daily` object returned by the weather API (src/app.js:355):
parallel per-day arrays.  Entries other than `time` may be `null`
(modelled as `none`).  `time` entries are opaque date strings, modelled as `ℕ`;
only `time.length` (the number of forecast days) is ever read. -/
structure DailyWeather where
  time : List ℕ
  temperature_2m_max : List (Option ℚ)
  temperature_2m_min : List (Option ℚ)
  precipitation_sum : List (Option ℚ)
  precipitation_probability_max : List (Option ℚ)
  sunshine_duration : List (Option ℚ)
  windspeed_10m_max : List (Option ℚ)
  deriving DecidableEq

/-- A fetch result for one grid point (src/app.js:351-365): `weather` is
`null` (`none`) when every retry failed. -/
structure WeatherPoint where
  lat : ℚ
  lon : ℚ
  index : ℕ
  weather : Option DailyWeather
  deriving DecidableEq

/-- One element of the array built by `calculateScores` (src/app.js:412-422);
`rank` is written later (src/app.js:429-431), modelled as initially `0`. -/
structure ScoredLocation where
  lat : ℚ
  lon : ℚ
  score : ℚ
  avgTemp : ℚ
  sunHours : ℚ
  rainAmount : ℚ
  rainChance : ℤ
  windSpeed : ℚ
  rawData : DailyWeather
  rank : ℕ
  deriving DecidableEq

/-- `average` (src/app.js:449-454): drop `null`/`undefined` entries, average
the rest, `0` when no valid entry remains. -/
def average (arr : List (Option ℚ)) : ℚ :=
  let validValues := arr.filterMap id
  if 0 < validValues.length then validValues.sum / validValues.length else 0

/-- `sum` (src/app.js:456-459): drop `null`/`undefined` entries, sum the rest. -/
def sum (arr : List (Option ℚ)) : ℚ := (arr.filterMap id).sum

/-- `calculateTempScore` (src/app.js:436-447). -/
def calculateTempScore (temp : ℚ) : ℚ :=
  let optimal : ℚ := 45/2
  let diff := |temp - optimal|
  if diff ≤ 5/2 then 100
  else if diff ≤ 5 then 90
  else if diff ≤ 10 then 70
  else if diff ≤ 15 then 50
  else if diff ≤ 20 then 30
  else 10

/-- The temperature step function exactly as worded in the spec (§4.2 step 5):
piecewise step of `|avgTemp − 22.5|`: ≤2.5→100, ≤5→90, ≤10→70, ≤15→50,
≤20→30, else 10.  Used only to compare against `calculateTempScore`. -/
def tempScoreSpec (avgTemp : ℚ) : ℚ :=
  if |avgTemp - 45/2| ≤ 5/2 then 100
  else if |avgTemp - 45/2| ≤ 5 then 90
  else if |avgTemp - 45/2| ≤ 10 then 70
  else if |avgTemp - 45/2| ≤ 15 then 50
  else if |avgTemp - 45/2| ≤ 20 then 30
  else 10

/-- `avgTempMax`/`avgTempMin`/`avgTemp` of `calculateScores` (src/app.js:378-380). -/
def avgTempOf (w : DailyWeather) : ℚ :=
  (average w.temperature_2m_max + average w.temperature_2m_min) / 2

/-- `totalRain` (src/app.js:382). -/
def totalRainOf (w : DailyWeather) : ℚ := sum w.precipitation_sum

/-- `avgRainPerDay` (src/app.js:383); `numDays = weather.time.length`. -/
def avgRainPerDayOf (w : DailyWeather) : ℚ := totalRainOf w / (w.time.length : ℚ)

/-- `avgRainChance` (src/app.js:384). -/
def avgRainChanceOf (w : DailyWeather) : ℚ := average w.precipitation_probability_max

/-- `avgSunHours` (src/app.js:386-387): seconds summed, `/3600`, `/numDays`. -/
def avgSunHoursOf (w : DailyWeather) : ℚ :=
  (sum w.sunshine_duration / 3600) / (w.time.length : ℚ)

/-- `avgWind` (src/app.js:389). -/
def avgWindOf (w : DailyWeather) : ℚ := average w.windspeed_10m_max

/-- `rainAmountScore` (src/app.js:398). -/
def rainAmountScoreOf (w : DailyWeather) : ℚ := max 0 (100 - avgRainPerDayOf w * 10)

/-- `rainChanceScore` (src/app.js:399). -/
def rainChanceScoreOf (w : DailyWeather) : ℚ := max 0 (100 - avgRainChanceOf w)

/-- `sunScore` (src/app.js:400). -/
def sunScoreOf (w : DailyWeather) : ℚ := min 100 (avgSunHoursOf w / 12 * 100)

/-- `windScore` (src/app.js:402). -/
def windScoreOf (w : DailyWeather) : ℚ := max 0 (100 - avgWindOf w * 2)

/-- `totalScore` (src/app.js:404-410), before the one-decimal rounding. -/
def totalScoreOf (w : DailyWeather) : ℚ :=
  rainAmountScoreOf w * (25/100) + rainChanceScoreOf w * (25/100) +
    sunScoreOf w * (30/100) + calculateTempScore (avgTempOf w) * (15/100) +
    windScoreOf w * (5/100)

/-- The object pushed by `calculateScores` for one point with non-null
weather (src/app.js:412-422). -/
def scorePoint (lat lon : ℚ) (w : DailyWeather) : ScoredLocation :=
  { lat := lat
    lon := lon
    score := round1 (totalScoreOf w)
    avgTemp := round1 (avgTempOf w)
    sunHours := round1 (avgSunHoursOf w)
    rainAmount := round1 (totalRainOf w)
    rainChance := jsRound (avgRainChanceOf w)
    windSpeed := round1 (avgWindOf w)
    rawData := w
    rank := 0 }

/-- The order used by `results.sort((a, b) => b.score - a.score)`
(src/app.js:426): `a` may precede `b` iff `b.score ≤ a.score`.  JS `sort` is
stable (ES2019), so the sort is modelled by a stable insertion sort. -/
def scoreGe (a b : ScoredLocation) : Prop := b.score ≤ a.score

instance : DecidableRel scoreGe := fun a b => inferInstanceAs (Decidable (b.score ≤ a.score))

instance : IsTotal ScoredLocation scoreGe := ⟨fun a b => le_total b.score a.score⟩

instance : IsTrans ScoredLocation scoreGe := ⟨fun _ _ _ h1 h2 => le_trans h2 h1⟩

/-- The rank-assignment pass `results.forEach((item, index) => item.rank = index + 1)`
(src/app.js:429-431), with the position counter made explicit. -/
def rankAux : ℕ → List ScoredLocation → List ScoredLocation
  | _, [] => []
  | i, x :: xs => { x with rank := i + 1 } :: rankAux (i + 1) xs

/-- The sort-then-rank tail of `calculateScores` (src/app.js:425-431). -/
def sortAndRank (l : List ScoredLocation) : List ScoredLocation :=
  rankAux 0 (List.insertionSort scoreGe l)

/-- `calculateScores` (src/app.js:368-434): points with `weather: null` are
skipped (`if (!point.weather) continue`), the rest are scored, then the result
array is sorted by score descending and ranked. -/
def calculateScores (weatherData : List WeatherPoint) : List ScoredLocation :=
  sortAndRank
    (weatherData.filterMap (fun p => p.weather.map (fun w => scorePoint p.lat p.lon w)))

/-- A generated grid point (src/app.js:233-237); `index` is `points.length`
at push time, i.e. the position in generation order. -/
structure GridPoint where
  lat : ℚ
  lon : ℚ
  index : ℕ
  deriving DecidableEq

/-- The divisor `gridDim - 1` of the step sizes in `generateGridFromCenter`
(src/app.js:224-225). -/
def stepDenom (gridDim : ℚ) : ℚ := gridDim - 1

/-- `generateGridFromCenter` (src/app.js:215-242).

The source computes `gridDim = Math.sqrt(gridSize)` (NOT rounded) and
`Math.cos(centerLat * Math.PI / 180)`; both doubles are exact rationals and
are taken here as the parameters `gridDim` and `cosCenterLat`.  The loops
`for (i = 0; i < gridDim; i++)` run for the naturals `i` with `(i : ℚ) < gridDim`,
i.e. `⌈gridDim⌉₊` iterations.  In `ℚ` the division `x / 0` is `0`, while in JS
`latStep` is `Infinity` when `gridDim = 1`; the point count is unaffected (the
JS code still pushes one point, with NaN coordinates). -/
def generateGridFromCenter (centerLat centerLon radiusKm gridDim cosCenterLat : ℚ) :
    List GridPoint :=
  let latDegrees := radiusKm / 111
  let lonDegrees := radiusKm / (111 * cosCenterLat)
  let latStep := 2 * latDegrees / stepDenom gridDim
  let lonStep := 2 * lonDegrees / stepDenom gridDim
  let dim := ⌈gridDim⌉₊
  (((List.range dim).flatMap (fun i => (List.range dim).map (fun j => (i, j)))).enum).map
    (fun e => { lat := centerLat - latDegrees + (e.2.1 : ℚ) * latStep
                lon := centerLon - lonDegrees + (e.2.2 : ℚ) * lonStep
                index := e.1 })

/-- A coordinate pair `{lat, lon}`. -/
abbrev Coord := ℚ × ℚ

/-- The `.lat`/`.lon` pair of a scored location, as read by the route
planner's distance calls. -/
def coordOf (c : ScoredLocation) : Coord := (c.lat, c.lon)

/-- One entry of the `route` array (src/app.js:2073-2078).  `idx` records
`nextLocation.index` — the position of the chosen location in `sortedSpots`,
the value inserted into the `visited` set (src/app.js:2080); the seed stop
(src/app.js:2043-2049) corresponds to index `0`. -/
structure RouteStop where
  day : ℕ
  location : ScoredLocation
  distance : ℤ
  idx : ℕ
  weather : DailyWeather
  deriving DecidableEq

/-- `totalScore` of one candidate inside `findNextBestLocation`
(src/app.js:2105-2123): weather score plus distance-efficiency bonus minus
direction penalty.  `dist` abstracts `this.calculateDistance` (haversine). -/
def suitability (dist : Coord → Coord → ℚ) (currentPoint : Coord) (maxTravel : ℚ)
    (previousLocation : Option Coord) (c : ScoredLocation) : ℚ :=
  let d := dist currentPoint (coordOf c)
  let directionPenalty : ℚ :=
    match previousLocation with
    | some q => if dist (coordOf c) q < d then 20 else 0
    | none => 0
  c.score + (maxTravel - d) / maxTravel * 30 - directionPenalty

/-- The candidates `findNextBestLocation` does not `continue` past
(src/app.js:2092-2103): unvisited, and within `maxTravel` of the current
position.  Elements are `(index in sortedSpots, location)`. -/
def survivors (dist : Coord → Coord → ℚ) (currentPoint : Coord)
    (sortedSpots : List ScoredLocation) (visited : List ℕ) (maxTravel : ℚ) :
    List (ℕ × ScoredLocation) :=
  sortedSpots.enum.filter
    (fun e => !(visited.contains e.1) && decide (dist currentPoint (coordOf e.2) ≤ maxTravel))

/-- The loop body of `findNextBestLocation` (src/app.js:2091-2129), with the
accumulator (`bestOption`, `bestScore`) explicit.  The input list is the
enumerated `sortedSpots`. -/
def findNextAux (dist : Coord → Coord → ℚ) (currentPoint : Coord) (visited : List ℕ)
    (maxTravel : ℚ) (previousLocation : Option Coord) :
    List (ℕ × ScoredLocation) → Option (ℕ × ScoredLocation) → ℚ →
      Option (ℕ × ScoredLocation)
  | [], best, _ => best
  | e :: rest, best, bestScore =>
    if visited.contains e.1 then
      findNextAux dist currentPoint visited maxTravel previousLocation rest best bestScore
    else if maxTravel < dist currentPoint (coordOf e.2) then
      findNextAux dist currentPoint visited maxTravel previousLocation rest best bestScore
    else
      let totalScore := suitability dist currentPoint maxTravel previousLocation e.2
      if bestScore < totalScore then
        findNextAux dist currentPoint visited maxTravel previousLocation rest (some e) totalScore
      else
        findNextAux dist currentPoint visited maxTravel previousLocation rest best bestScore

/-- `findNextBestLocation` (src/app.js:2087-2132): `bestOption` starts `null`,
`bestScore` starts `-1`; the result carries `{ location, index }` (here
`(index, location)`). -/
def findNextBestLocation (dist : Coord → Coord → ℚ) (currentPoint : Coord)
    (sortedSpots : List ScoredLocation) (visited : List ℕ) (maxTravel : ℚ)
    (previousLocation : Option Coord) : Option (ℕ × ScoredLocation) :=
  findNextAux dist currentPoint visited maxTravel previousLocation
    sortedSpots.enum none (-1)

/-- The day loop of `optimizeRoute` (src/app.js:2053-2082).  `fuel` is the
number of remaining day values (`totalDays - day + 1` at entry), so `fuel = 0`
is `day > totalDays`.  `previousLocation` is
`route.length > 0 ? route[route.length-1].location : null`. -/
def routeLoop (dist : Coord → Coord → ℚ) (sortedSpots : List ScoredLocation)
    (maxTravelPerDay : ℚ) :
    ℕ → ℕ → List RouteStop → List ℕ → Coord → List RouteStop
  | 0, _, route, _, _ => route
  | fuel + 1, day, route, visited, currentPoint =>
    if route.length < sortedSpots.length then
      match findNextBestLocation dist currentPoint sortedSpots visited maxTravelPerDay
        (route.getLast?.map (fun s => coordOf s.location)) with
      | none => route
      | some (i, c) =>
        routeLoop dist sortedSpots maxTravelPerDay fuel (day + 1)
          (route ++ [{ day := day, location := c,
                       distance := jsRound (dist currentPoint (coordOf c)),
                       idx := i, weather := c.rawData }])
          (i :: visited) (coordOf c)
    else route

/-- `optimizeRoute` (src/app.js:2031-2085).  With a `startPoint` the day loop
runs from day 1 with an empty route; without one, the best-scoring spot is
pushed as the day-1 stop (distance 0, index 0 marked visited) and the loop
runs from day 2.  Without a start point and with an empty `weatherData`,
`sortedSpots[0]` is `undefined` and the JS code throws on reading its
`rawData`: that case is `none`. -/
def optimizeRoute (dist : Coord → Coord → ℚ) (weatherData : List ScoredLocation)
    (maxTravelPerDay : ℚ) (totalDays : ℕ) (startPoint : Option Coord) :
    Option (List RouteStop) :=
  let sortedSpots := List.insertionSort scoreGe weatherData
  match startPoint with
  | some s => some (routeLoop dist sortedSpots maxTravelPerDay totalDays 1 [] [] s)
  | none =>
    match sortedSpots with
    | [] => none
    | s0 :: rest =>
      some (routeLoop dist (s0 :: rest) maxTravelPerDay (totalDays - 1) 2
        [{ day := 1, location := s0, distance := 0, idx := 0, weather := s0.rawData }]
        [0] (coordOf s0))

/-! ## Concrete instances used in witnesses and counterexamples -/

/-- An empty weather series. -/
def wEmpty : DailyWeather := ⟨[], [], [], [], [], [], []⟩

/-- A one-day series with benign values. -/
def wDay : DailyWeather :=
  { time := [0]
    temperature_2m_max := [some 25]
    temperature_2m_min := [some 15]
    precipitation_sum := [some 1]
    precipitation_probability_max := [some 10]
    sunshine_duration := [some 36000]
    windspeed_10m_max := [some 10] }

/-- A two-day series whose wind entries are all missing. -/
def wNoWind : DailyWeather :=
  { time := [0, 1]
    temperature_2m_max := [some 20, some 22]
    temperature_2m_min := [some 10, some 12]
    precipitation_sum := [some 0, some 2]
    precipitation_probability_max := [some 5, some 15]
    sunshine_duration := [some 3600, some 7200]
    windspeed_10m_max := [none, none] }

/-- A fetch result carrying `wNoWind`. -/
def pNoWind : WeatherPoint := ⟨48, 16, 0, some wNoWind⟩

/-- Scored location at `(0,0)` with score 90. -/
def locA : ScoredLocation := ⟨0, 0, 90, 20, 8, 1, 10, 5, wEmpty, 0⟩

/-- Scored location at `(1,0)` with score 80. -/
def locB : ScoredLocation := ⟨1, 0, 80, 18, 7, 2, 20, 6, wEmpty, 0⟩

/-- Scored location at `(2,0)` with score 0. -/
def locZero : ScoredLocation := ⟨2, 0, 0, 10, 1, 9, 90, 30, wEmpty, 0⟩

/-- A distance function making every hop 1000 km. -/
def distFar : Coord → Coord → ℚ := fun _ _ => 1000

/-- A distance function: 100 km from `(0,0)` to `(2,0)`, 0 km otherwise. -/
def distPen : Coord → Coord → ℚ :=
  fun p q => if p = ((0 : ℚ), (0 : ℚ)) ∧ q = ((2 : ℚ), (0 : ℚ)) then 100 else 0

/-- The zero distance function. -/
def distZero : Coord → Coord → ℚ := fun _ _ => 0

/-- The route built by `optimizeRoute distZero [locA, locB] 100 2 none`. -/
def routeAB : List RouteStop :=
  [{ day := 1, location := locA, distance := 0, idx := 0, weather := wEmpty },
   { day := 2, location := locB, distance := 0, idx := 1, weather := wEmpty }]

/-- The exact value of the IEEE-754 double `Math.sqrt(5)`
(`0x4001E3779B97F4A8`, i.e. `629397181890197 · 2⁻⁴⁸`). -/
def sqrtFive : ℚ := 629397181890197 / 281474976710656

/-! ## The greedy selection as an argmax

`findNextBestLocation` folds over the candidates keeping the best
`totalScore` seen so far (strictly better, so the earliest maximum wins),
starting from `bestScore = -1`.  We characterise such a fold as a `find?`
for "first element whose value exceeds the start and is maximal". -/

/-- One step of a strict running-maximum fold. -/
def selectFold {α : Type} (f : α → ℚ) : List α → Option α → ℚ → Option α
  | [], best, _ => best
  | e :: rest, best, bestScore =>
    if bestScore < f e then selectFold f rest (some e) (f e)
    else selectFold f rest best bestScore

/-- "`e` beats the starting score `bs` and is maximal in `l`". -/
def selectPred {α : Type} (f : α → ℚ) (l : List α) (bs : ℚ) (e : α) : Bool :=
  decide (bs < f e) && l.all (fun x => decide (f x ≤ f e))

lemma bool_eq_of_iff {a b : Bool} (h : a = true ↔ b = true) : a = b := by
  cases a <;> cases b <;> simp_all

lemma match_some_none {α : Type} (o : Option α) :
    (match o with | some x => some x | none => none) = o := by
  cases o <;> rfl

lemma find?_congr {α : Type} (p q : α → Bool) :
    ∀ l : List α, (∀ x ∈ l, p x = q x) → l.find? p = l.find? q := by
  intro l
  induction l with
  | nil => intro _; rfl
  | cons a l ih =>
    intro h
    have ha : p a = q a := h a (List.mem_cons_self a l)
    have ht : l.find? p = l.find? q := ih (fun x hx => h x (List.mem_cons_of_mem _ hx))
    by_cases hp : p a = true
    · have hq : q a = true := ha ▸ hp
      rw [List.find?_cons_of_pos _ hp, List.find?_cons_of_pos _ hq]
    · have hq : ¬(q a = true) := fun hh => hp (ha.symm ▸ hh)
      rw [List.find?_cons_of_neg _ hp, List.find?_cons_of_neg _ hq, ht]

/-- The strict running-maximum fold started at `(best, bs)` returns the first
element of `l` that is maximal in `l` and beats `bs`, or `best` when no
element beats `bs`. -/
lemma selectFold_eq_find {α : Type} (f : α → ℚ) :
    ∀ (l : List α) (best : Option α) (bs : ℚ),
      selectFold f l best bs =
        match l.find? (selectPred f l bs) with
        | some x => some x
        | none => best := by
  intro l
  induction l with
  | nil => intro best bs; rfl
  | cons e r ih =>
    intro best bs
    by_cases he : bs < f e
    · rw [selectFold, if_pos he, ih]
      by_cases hall : ∀ x ∈ r, f x ≤ f e
      · have hpe : selectPred f (e :: r) bs e = true := by
          simp only [selectPred, Bool.and_eq_true, decide_eq_true_eq, List.all_eq_true]
          refine ⟨he, ?_⟩
          intro x hx
          rcases List.mem_cons.1 hx with h | h
          · subst h; simp
          · simpa using hall x h
        have hnone : r.find? (selectPred f r (f e)) = none := by
          rw [List.find?_eq_none]
          intro x hx hpx
          simp only [selectPred, Bool.and_eq_true, decide_eq_true_eq] at hpx
          exact absurd hpx.1 (not_lt.2 (hall x hx))
        rw [hnone, List.find?_cons_of_pos _ hpe]
      · push_neg at hall
        obtain ⟨x0, hx0m, hx0⟩ := hall
        have hpe : ¬(selectPred f (e :: r) bs e = true) := by
          simp only [selectPred, Bool.and_eq_true, decide_eq_true_eq, List.all_eq_true]
          rintro ⟨-, hle⟩
          exact absurd (hle x0 (List.mem_cons_of_mem _ hx0m)) (not_le.2 hx0)
        rw [List.find?_cons_of_neg _ hpe]
        have hcongr : r.find? (selectPred f (e :: r) bs) = r.find? (selectPred f r (f e)) := by
          apply find?_congr
          intro x hx
          apply bool_eq_of_iff
          simp only [selectPred, Bool.and_eq_true, decide_eq_true_eq, List.all_eq_true]
          constructor
          · rintro ⟨-, h2⟩
            have hx0x : f x0 ≤ f x := h2 x0 (List.mem_cons_of_mem _ hx0m)
            refine ⟨lt_of_lt_of_le hx0 hx0x, ?_⟩
            intro y hy
            exact h2 y (List.mem_cons_of_mem _ hy)
          · rintro ⟨h1, h2⟩
            refine ⟨lt_trans he h1, ?_⟩
            intro y hy
            rcases List.mem_cons.1 hy with h | h
            · subst h; simpa using le_of_lt h1
            · exact h2 y h
        rw [hcongr]
        have hr0 : x0 ∈ r := hx0m
        obtain ⟨m, hmm⟩ : ∃ m, m ∈ r.argmax f := by
          cases ham : r.argmax f with
          | none =>
            exact absurd (List.argmax_eq_none.1 ham) (List.ne_nil_of_mem hr0)
          | some m => exact ⟨m, by simp [Option.mem_def, ham]⟩
        have hmr : m ∈ r := List.argmax_mem hmm
        have hmax : ∀ y ∈ r, f y ≤ f m := fun y hy => List.le_of_mem_argmax hy hmm
        have hsome : (r.find? (selectPred f r (f e))).isSome := by
          rw [List.find?_isSome]
          refine ⟨m, hmr, ?_⟩
          simp only [selectPred, Bool.and_eq_true, decide_eq_true_eq, List.all_eq_true]
          exact ⟨lt_of_lt_of_le hx0 (hmax x0 hr0), fun y hy => hmax y hy⟩
        obtain ⟨x, hx⟩ := Option.isSome_iff_exists.1 hsome
        rw [hx]
    · rw [selectFold, if_neg he, ih]
      have hpe : ¬(selectPred f (e :: r) bs e = true) := by
        simp only [selectPred, Bool.and_eq_true, decide_eq_true_eq, List.all_eq_true]
        rintro ⟨h1, -⟩
        exact he h1
      rw [List.find?_cons_of_neg _ hpe]
      have hcongr : r.find? (selectPred f (e :: r) bs) = r.find? (selectPred f r bs) := by
        apply find?_congr
        intro x hx
        apply bool_eq_of_iff
        simp only [selectPred, Bool.and_eq_true, decide_eq_true_eq, List.all_eq_true]
        constructor
        · rintro ⟨h1, h2⟩
          exact ⟨h1, fun y hy => h2 y (List.mem_cons_of_mem _ hy)⟩
        · rintro ⟨h1, h2⟩
          refine ⟨h1, ?_⟩
          intro y hy
          rcases List.mem_cons.1 hy with h | h
          · subst h
            exact le_of_lt (lt_of_le_of_lt (not_lt.1 he) h1)
          · exact h2 y h
      rw [hcongr]

/-- `findNextBestLocation`'s loop over the enumerated spots equals the strict
running-maximum fold over the filtered (unvisited, in-range) candidates. -/
lemma findNextAux_eq_selectFold (dist : Coord → Coord → ℚ) (currentPoint : Coord)
    (visited : List ℕ) (maxTravel : ℚ) (previousLocation : Option Coord) :
    ∀ (l : List (ℕ × ScoredLocation)) (best : Option (ℕ × ScoredLocation)) (bs : ℚ),
      findNextAux dist currentPoint visited maxTravel previousLocation l best bs =
        selectFold (fun e => suitability dist currentPoint maxTravel previousLocation e.2)
          (l.filter (fun e => !(visited.contains e.1) &&
            decide (dist currentPoint (coordOf e.2) ≤ maxTravel)))
          best bs := by
  have hcons : ∀ (e : ℕ × ScoredLocation) (r : List (ℕ × ScoredLocation))
      (best : Option (ℕ × ScoredLocation)) (bs : ℚ),
      findNextAux dist currentPoint visited maxTravel previousLocation (e :: r) best bs =
        if visited.contains e.1 then
          findNextAux dist currentPoint visited maxTravel previousLocation r best bs
        else if maxTravel < dist currentPoint (coordOf e.2) then
          findNextAux dist currentPoint visited maxTravel previousLocation r best bs
        else if bs < suitability dist currentPoint maxTravel previousLocation e.2 then
          findNextAux dist currentPoint visited maxTravel previousLocation r (some e)
            (suitability dist currentPoint maxTravel previousLocation e.2)
        else
          findNextAux dist currentPoint visited maxTravel previousLocation r best bs :=
    fun _ _ _ _ => rfl
  intro l
  induction l with
  | nil => intro best bs; rfl
  | cons e r ih =>
    intro best bs
    by_cases hv : visited.contains e.1 = true
    · have hfilter : (e :: r).filter (fun x => !(visited.contains x.1) &&
          decide (dist currentPoint (coordOf x.2) ≤ maxTravel)) =
            r.filter (fun x => !(visited.contains x.1) &&
              decide (dist currentPoint (coordOf x.2) ≤ maxTravel)) := by
        have hv2 : e.1 ∈ visited := by simpa using hv
        rw [List.filter_cons]
        simp [hv2]
      rw [hcons, if_pos hv, hfilter]
      exact ih best bs
    · by_cases hd : maxTravel < dist currentPoint (coordOf e.2)
      · have hfilter : (e :: r).filter (fun x => !(visited.contains x.1) &&
            decide (dist currentPoint (coordOf x.2) ≤ maxTravel)) =
              r.filter (fun x => !(visited.contains x.1) &&
                decide (dist currentPoint (coordOf x.2) ≤ maxTravel)) := by
          rw [List.filter_cons]
          simp [not_le.2 hd]
        rw [hcons, if_neg hv, if_pos hd, hfilter]
        exact ih best bs
      · have hfilter : (e :: r).filter (fun x => !(visited.contains x.1) &&
            decide (dist currentPoint (coordOf x.2) ≤ maxTravel)) =
              e :: r.filter (fun x => !(visited.contains x.1) &&
                decide (dist currentPoint (coordOf x.2) ≤ maxTravel)) := by
          have hv2 : e.1 ∉ visited := by simpa using hv
          rw [List.filter_cons]
          simp [hv2, not_lt.1 hd]
        rw [hcons, if_neg hv, if_neg hd, hfilter, selectFold]
        by_cases hb : bs < suitability dist currentPoint maxTravel previousLocation e.2
        · rw [if_pos hb, if_pos hb, ih]
        · rw [if_neg hb, if_neg hb, ih]

/-- `findNextBestLocation` returns the earliest survivor (unvisited candidate
within `maxTravel`) whose suitability is maximal among survivors and exceeds
the initial `bestScore` of `-1`; `none` when no survivor qualifies. -/
lemma findNextBestLocation_eq_find (dist : Coord → Coord → ℚ) (currentPoint : Coord)
    (sortedSpots : List ScoredLocation) (visited : List ℕ) (maxTravel : ℚ)
    (previousLocation : Option Coord) :
    findNextBestLocation dist currentPoint sortedSpots visited maxTravel previousLocation =
      (survivors dist currentPoint sortedSpots visited maxTravel).find?
        (selectPred (fun e => suitability dist currentPoint maxTravel previousLocation e.2)
          (survivors dist currentPoint sortedSpots visited maxTravel) (-1)) := by
  unfold findNextBestLocation survivors
  rw [findNextAux_eq_selectFold, selectFold_eq_find]
  exact match_some_none _

/-- If no candidate survives the visited/distance filter, the day search
returns `null`. -/
lemma findNextBestLocation_eq_none (dist : Coord → Coord → ℚ) (currentPoint : Coord)
    (sortedSpots : List ScoredLocation) (visited : List ℕ) (maxTravel : ℚ)
    (previousLocation : Option Coord)
    (h : survivors dist currentPoint sortedSpots visited maxTravel = []) :
    findNextBestLocation dist currentPoint sortedSpots visited maxTravel
      previousLocation = none := by
  rw [findNextBestLocation_eq_find, h]
  rfl

/-- A found candidate is an unvisited survivor: in particular its index is not
in `visited`. -/
lemma findNextBestLocation_not_visited (dist : Coord → Coord → ℚ) (currentPoint : Coord)
    (sortedSpots : List ScoredLocation) (visited : List ℕ) (maxTravel : ℚ)
    (previousLocation : Option Coord) (i : ℕ) (c : ScoredLocation)
    (h : findNextBestLocation dist currentPoint sortedSpots visited maxTravel
      previousLocation = some (i, c)) : i ∉ visited := by
  rw [findNextBestLocation_eq_find] at h
  have hmem := List.mem_of_find?_eq_some h
  rw [survivors, List.mem_filter] at hmem
  have := hmem.2
  simp only [Bool.and_eq_true, Bool.not_eq_true'] at this
  simpa using this.1

/-- The day loop only appends stops whose index is fresh: if every index
already on the route is in `visited` and the recorded indices are distinct,
they stay distinct. -/
lemma routeLoop_nodup (dist : Coord → Coord → ℚ) (sortedSpots : List ScoredLocation)
    (maxTravelPerDay : ℚ) :
    ∀ (fuel day : ℕ) (route : List RouteStop) (visited : List ℕ) (currentPoint : Coord),
      (∀ s ∈ route, s.idx ∈ visited) → (route.map RouteStop.idx).Nodup →
      ((routeLoop dist sortedSpots maxTravelPerDay fuel day route visited
        currentPoint).map RouteStop.idx).Nodup := by
  intro fuel
  induction fuel with
  | zero => intro day route visited currentPoint _ h2; exact h2
  | succ fuel ih =>
    intro day route visited currentPoint h1 h2
    have hunf : routeLoop dist sortedSpots maxTravelPerDay (fuel + 1) day route visited
        currentPoint =
        if route.length < sortedSpots.length then
          match findNextBestLocation dist currentPoint sortedSpots visited maxTravelPerDay
            (route.getLast?.map (fun s => coordOf s.location)) with
          | none => route
          | some (i, c) =>
            routeLoop dist sortedSpots maxTravelPerDay fuel (day + 1)
              (route ++ [{ day := day, location := c,
                           distance := jsRound (dist currentPoint (coordOf c)),
                           idx := i, weather := c.rawData }])
              (i :: visited) (coordOf c)
        else route := rfl
    rw [hunf]
    by_cases hlen : route.length < sortedSpots.length
    · rw [if_pos hlen]
      cases hh : findNextBestLocation dist currentPoint sortedSpots visited maxTravelPerDay
          (route.getLast?.map (fun s => coordOf s.location)) with
      | none => exact h2
      | some ic =>
        obtain ⟨i, c⟩ := ic
        have hni : i ∉ visited :=
          findNextBestLocation_not_visited dist currentPoint sortedSpots visited
            maxTravelPerDay (route.getLast?.map (fun s => coordOf s.location)) i c hh
        show ((routeLoop dist sortedSpots maxTravelPerDay fuel (day + 1)
          (route ++ [{ day := day, location := c,
                       distance := jsRound (dist currentPoint (coordOf c)),
                       idx := i, weather := c.rawData }])
          (i :: visited) (coordOf c)).map RouteStop.idx).Nodup
        apply ih
        · intro s hs
          rcases List.mem_append.1 hs with h | h
          · exact List.mem_cons_of_mem _ (h1 s h)
          · rw [List.mem_singleton.1 h]
            exact List.mem_cons_self _ _
        · rw [List.map_append]
          refine List.Nodup.append h2 (by simp) ?_
          intro a ha hb
          simp only [List.map_cons, List.map_nil, List.mem_singleton] at hb
          obtain ⟨s, hsm, hsi⟩ := List.mem_map.1 ha
          rw [hb] at hsi
          exact hni (hsi ▸ h1 s hsm)
    · rw [if_neg hlen]
      exact h2

/-! ## Bounds for the aggregation helpers -/

lemma average_def (l : List (Option ℚ)) :
    average l = if 0 < (l.filterMap id).length then
      (l.filterMap id).sum / (l.filterMap id).length else 0 := rfl

lemma mem_validValues {l : List (Option ℚ)} {q : ℚ} :
    q ∈ l.filterMap id ↔ some q ∈ l := by
  simp [List.mem_filterMap]

lemma sum_nonneg_of_valid (l : List (Option ℚ)) (h : ∀ q, some q ∈ l → 0 ≤ q) :
    0 ≤ sum l :=
  List.sum_nonneg fun x hx => h x (mem_validValues.1 hx)

lemma average_nonneg (l : List (Option ℚ)) (h : ∀ q, some q ∈ l → 0 ≤ q) :
    0 ≤ average l := by
  rw [average_def]
  by_cases hlen : 0 < (l.filterMap id).length
  · rw [if_pos hlen]
    exact div_nonneg (List.sum_nonneg fun x hx => h x (mem_validValues.1 hx))
      (Nat.cast_nonneg _)
  · rw [if_neg hlen]

lemma average_le_of (l : List (Option ℚ)) (c : ℚ) (hc : 0 ≤ c)
    (h : ∀ q, some q ∈ l → q ≤ c) : average l ≤ c := by
  rw [average_def]
  by_cases hlen : 0 < (l.filterMap id).length
  · rw [if_pos hlen]
    rw [div_le_iff₀ (by exact_mod_cast hlen)]
    have hsum : (l.filterMap id).sum ≤ (l.filterMap id).length • c :=
      List.sum_le_card_nsmul _ c fun x hx => h x (mem_validValues.1 hx)
    rw [nsmul_eq_mul] at hsum
    calc (l.filterMap id).sum ≤ ((l.filterMap id).length : ℚ) * c := hsum
    _ = c * (l.filterMap id).length := mul_comm _ _
  · rw [if_neg hlen]; exact hc

lemma round1_bounds (q : ℚ) (h0 : 0 ≤ q) (h100 : q ≤ 100) :
    0 ≤ round1 q ∧ round1 q ≤ 100 := by
  unfold round1 jsRound
  constructor
  · apply div_nonneg _ (by norm_num)
    have h1 : (0 : ℤ) ≤ ⌊q * 10 + 1/2⌋ := Int.le_floor.2 (by push_cast; linarith)
    exact_mod_cast h1
  · rw [div_le_iff₀ (by norm_num : (0:ℚ) < 10)]
    have h1 : ⌊q * 10 + 1/2⌋ ≤ (1000 : ℤ) := by
      have h2 : q * 10 + 1/2 < ((1001 : ℤ) : ℚ) := by push_cast; linarith
      exact Int.lt_add_one_iff.1 (Int.floor_lt.2 h2)
    calc ((⌊q * 10 + 1/2⌋ : ℤ) : ℚ) ≤ ((1000 : ℤ) : ℚ) := by exact_mod_cast h1
    _ = 100 * 10 := by norm_num

lemma calculateTempScore_bounds (t : ℚ) :
    10 ≤ calculateTempScore t ∧ calculateTempScore t ≤ 100 := by
  have hd : calculateTempScore t =
      (if |t - 45/2| ≤ 5/2 then (100 : ℚ)
       else if |t - 45/2| ≤ 5 then 90
       else if |t - 45/2| ≤ 10 then 70
       else if |t - 45/2| ≤ 15 then 50
       else if |t - 45/2| ≤ 20 then 30
       else 10) := rfl
  rw [hd]
  split_ifs <;> norm_num

lemma rainAmountScoreOf_bounds (w : DailyWeather)
    (h : ∀ q, some q ∈ w.precipitation_sum → 0 ≤ q) :
    0 ≤ rainAmountScoreOf w ∧ rainAmountScoreOf w ≤ 100 := by
  unfold rainAmountScoreOf
  refine ⟨le_max_left 0 _, max_le (by norm_num) ?_⟩
  have h1 : 0 ≤ avgRainPerDayOf w := by
    unfold avgRainPerDayOf totalRainOf
    exact div_nonneg (sum_nonneg_of_valid _ h) (Nat.cast_nonneg _)
  linarith

lemma rainChanceScoreOf_bounds (w : DailyWeather)
    (h : ∀ q, some q ∈ w.precipitation_probability_max → 0 ≤ q) :
    0 ≤ rainChanceScoreOf w ∧ rainChanceScoreOf w ≤ 100 := by
  unfold rainChanceScoreOf
  refine ⟨le_max_left 0 _, max_le (by norm_num) ?_⟩
  have h1 : 0 ≤ avgRainChanceOf w := average_nonneg _ h
  linarith

lemma sunScoreOf_bounds (w : DailyWeather)
    (h : ∀ q, some q ∈ w.sunshine_duration → 0 ≤ q) :
    0 ≤ sunScoreOf w ∧ sunScoreOf w ≤ 100 := by
  unfold sunScoreOf
  refine ⟨le_min (by norm_num) ?_, min_le_left _ _⟩
  have h1 : 0 ≤ avgSunHoursOf w := by
    unfold avgSunHoursOf
    exact div_nonneg (div_nonneg (sum_nonneg_of_valid _ h) (by norm_num))
      (Nat.cast_nonneg _)
  positivity

lemma windScoreOf_bounds (w : DailyWeather)
    (h : ∀ q, some q ∈ w.windspeed_10m_max → 0 ≤ q) :
    0 ≤ windScoreOf w ∧ windScoreOf w ≤ 100 := by
  unfold windScoreOf
  refine ⟨le_max_left 0 _, max_le (by norm_num) ?_⟩
  have h1 : 0 ≤ avgWindOf w := average_nonneg _ h
  linarith

lemma totalScoreOf_bounds (w : DailyWeather)
    (hrain : ∀ q, some q ∈ w.precipitation_sum → 0 ≤ q)
    (hsun : ∀ q, some q ∈ w.sunshine_duration → 0 ≤ q)
    (hwind : ∀ q, some q ∈ w.windspeed_10m_max → 0 ≤ q)
    (hprob : ∀ q, some q ∈ w.precipitation_probability_max → 0 ≤ q) :
    0 ≤ totalScoreOf w ∧ totalScoreOf w ≤ 100 := by
  obtain ⟨a1, a2⟩ := rainAmountScoreOf_bounds w hrain
  obtain ⟨b1, b2⟩ := rainChanceScoreOf_bounds w hprob
  obtain ⟨c1, c2⟩ := sunScoreOf_bounds w hsun
  obtain ⟨d1, d2⟩ := calculateTempScore_bounds (avgTempOf w)
  obtain ⟨e1, e2⟩ := windScoreOf_bounds w hwind
  unfold totalScoreOf
  constructor <;> nlinarith

/-! ## Lattice arithmetic -/

lemma sum_flatMap {α : Type} (l : List α) (f : α → List ℚ) :
    (l.flatMap f).sum = (l.map (fun a => (f a).sum)).sum := by
  induction l with
  | nil => rfl
  | cons a l ih => simp [List.flatMap_cons, List.sum_append, ih]

lemma sum_map_range_linear (n : ℕ) (a s : ℚ) :
    ((List.range n).map (fun i : ℕ => a + (i : ℚ) * s)).sum =
      n * a + n * (n - 1) / 2 * s := by
  induction n with
  | zero => simp
  | succ n ih =>
    rw [List.range_succ, List.map_append, List.sum_append, ih]
    simp only [List.map_cons, List.map_nil, List.sum_cons, List.sum_nil]
    push_cast
    ring

lemma map_enum_snd {α β : Type} (l : List α) (g : α → β) :
    l.enum.map (g ∘ Prod.snd) = l.map g := by
  rw [← List.map_map, List.enum_map_snd]

lemma grid_length (centerLat centerLon radiusKm gridDim cosCenterLat : ℚ) :
    (generateGridFromCenter centerLat centerLon radiusKm gridDim cosCenterLat).length =
      ⌈gridDim⌉₊ * ⌈gridDim⌉₊ := by
  unfold generateGridFromCenter
  simp [List.length_flatMap, Function.comp_def, List.length_map, List.length_range,
    List.map_const', List.sum_replicate, smul_eq_mul]

lemma grid_lat_sum (centerLat centerLon radiusKm cosCenterLat : ℚ) (k : ℕ)
    (hk : 2 ≤ k) :
    ((generateGridFromCenter centerLat centerLon radiusKm (k : ℚ) cosCenterLat).map
      GridPoint.lat).sum = (k : ℚ) * k * centerLat := by
  have hkq : ((k : ℚ) - 1) ≠ 0 := by
    have : (2 : ℚ) ≤ (k : ℚ) := by exact_mod_cast hk
    linarith
  unfold generateGridFromCenter stepDenom
  rw [Nat.ceil_natCast, List.map_map]
  rw [show ((GridPoint.lat ∘ fun e : ℕ × ℕ × ℕ =>
      ({ lat := centerLat - radiusKm / 111 + (e.2.1 : ℚ) *
          (2 * (radiusKm / 111) / ((k : ℚ) - 1)),
         lon := centerLon - radiusKm / (111 * cosCenterLat) + (e.2.2 : ℚ) *
          (2 * (radiusKm / (111 * cosCenterLat)) / ((k : ℚ) - 1)),
         index := e.1 } : GridPoint))) =
      ((fun p : ℕ × ℕ => centerLat - radiusKm / 111 + (p.1 : ℚ) *
          (2 * (radiusKm / 111) / ((k : ℚ) - 1))) ∘ Prod.snd) from rfl]
  rw [map_enum_snd]
  rw [List.map_flatMap]
  rw [sum_flatMap]
  have hinner : ∀ i : ℕ,
      (((List.range k).map (fun j => (i, j))).map
        (fun p : ℕ × ℕ => centerLat - radiusKm / 111 + (p.1 : ℚ) *
          (2 * (radiusKm / 111) / ((k : ℚ) - 1)))).sum =
        (k : ℚ) * (centerLat - radiusKm / 111) +
          ((i : ℚ) * ((k : ℚ) * (2 * (radiusKm / 111) / ((k : ℚ) - 1)))) := by
    intro i
    rw [List.map_map]
    rw [show ((fun p : ℕ × ℕ => centerLat - radiusKm / 111 + (p.1 : ℚ) *
        (2 * (radiusKm / 111) / ((k : ℚ) - 1))) ∘ (fun j : ℕ => (i, j))) =
        (fun _ : ℕ => centerLat - radiusKm / 111 + (i : ℚ) *
          (2 * (radiusKm / 111) / ((k : ℚ) - 1))) from rfl]
    rw [List.map_const', List.sum_replicate, List.length_range, nsmul_eq_mul]
    ring
  rw [List.map_congr_left (fun i _ => hinner i)]
  rw [show (fun i : ℕ => (k : ℚ) * (centerLat - radiusKm / 111) +
      ((i : ℚ) * ((k : ℚ) * (2 * (radiusKm / 111) / ((k : ℚ) - 1))))) =
      (fun i : ℕ => ((k : ℚ) * (centerLat - radiusKm / 111)) + (i : ℚ) *
        ((k : ℚ) * (2 * (radiusKm / 111) / ((k : ℚ) - 1)))) from rfl]
  rw [sum_map_range_linear]
  field_simp
  ring

lemma grid_lon_sum (centerLat centerLon radiusKm cosCenterLat : ℚ) (k : ℕ)
    (hk : 2 ≤ k) :
    ((generateGridFromCenter centerLat centerLon radiusKm (k : ℚ) cosCenterLat).map
      GridPoint.lon).sum = (k : ℚ) * k * centerLon := by
  have hkq : ((k : ℚ) - 1) ≠ 0 := by
    have : (2 : ℚ) ≤ (k : ℚ) := by exact_mod_cast hk
    linarith
  unfold generateGridFromCenter stepDenom
  rw [Nat.ceil_natCast, List.map_map]
  rw [show ((GridPoint.lon ∘ fun e : ℕ × ℕ × ℕ =>
      ({ lat := centerLat - radiusKm / 111 + (e.2.1 : ℚ) *
          (2 * (radiusKm / 111) / ((k : ℚ) - 1)),
         lon := centerLon - radiusKm / (111 * cosCenterLat) + (e.2.2 : ℚ) *
          (2 * (radiusKm / (111 * cosCenterLat)) / ((k : ℚ) - 1)),
         index := e.1 } : GridPoint))) =
      ((fun p : ℕ × ℕ => centerLon - radiusKm / (111 * cosCenterLat) + (p.2 : ℚ) *
          (2 * (radiusKm / (111 * cosCenterLat)) / ((k : ℚ) - 1))) ∘ Prod.snd) from rfl]
  rw [map_enum_snd]
  rw [List.map_flatMap]
  rw [sum_flatMap]
  have hinner : ∀ i : ℕ,
      (((List.range k).map (fun j => (i, j))).map
        (fun p : ℕ × ℕ => centerLon - radiusKm / (111 * cosCenterLat) + (p.2 : ℚ) *
          (2 * (radiusKm / (111 * cosCenterLat)) / ((k : ℚ) - 1)))).sum =
        (k : ℚ) * (centerLon - radiusKm / (111 * cosCenterLat)) +
          (k : ℚ) * ((k : ℚ) - 1) / 2 *
            (2 * (radiusKm / (111 * cosCenterLat)) / ((k : ℚ) - 1)) := by
    intro i
    rw [List.map_map]
    rw [show ((fun p : ℕ × ℕ => centerLon - radiusKm / (111 * cosCenterLat) + (p.2 : ℚ) *
        (2 * (radiusKm / (111 * cosCenterLat)) / ((k : ℚ) - 1))) ∘ (fun j : ℕ => (i, j))) =
        (fun j : ℕ => centerLon - radiusKm / (111 * cosCenterLat) + (j : ℚ) *
          (2 * (radiusKm / (111 * cosCenterLat)) / ((k : ℚ) - 1))) from rfl]
    rw [sum_map_range_linear]
  rw [List.map_congr_left (fun i _ => hinner i)]
  rw [List.map_const', List.sum_replicate, List.length_range, nsmul_eq_mul]
  generalize radiusKm / (111 * cosCenterLat) = L
  field_simp
  ring

/-! ## Rank assignment -/

lemma rankAux_idem : ∀ (i : ℕ) (l : List ScoredLocation),
    rankAux i (rankAux i l) = rankAux i l := by
  intro i l
  induction l generalizing i with
  | nil => rfl
  | cons x xs ih => simp [rankAux, ih]

lemma rankAux_score : ∀ (i : ℕ) (l : List ScoredLocation) (x : ScoredLocation),
    x ∈ rankAux i l → ∃ y ∈ l, x.score = y.score := by
  intro i l
  induction l generalizing i with
  | nil => intro x hx; cases hx
  | cons a as ih =>
    intro x hx
    rcases List.mem_cons.1 hx with h | h
    · exact ⟨a, List.mem_cons_self _ _, by rw [h]⟩
    · obtain ⟨y, hy, he⟩ := ih (i + 1) x h
      exact ⟨y, List.mem_cons_of_mem _ hy, he⟩

lemma rankAux_sorted : ∀ (i : ℕ) (l : List ScoredLocation),
    List.Sorted scoreGe l → List.Sorted scoreGe (rankAux i l) := by
  intro i l
  induction l generalizing i with
  | nil => intro _; simp [rankAux]
  | cons a as ih =>
    intro h
    rw [List.sorted_cons] at h
    show List.Sorted scoreGe ({ a with rank := i + 1 } :: rankAux (i + 1) as)
    rw [List.sorted_cons]
    refine ⟨?_, ih (i + 1) h.2⟩
    intro b hb
    obtain ⟨y, hy, he⟩ := rankAux_score (i + 1) as b hb
    show b.score ≤ ({ a with rank := i + 1 } : ScoredLocation).score
    rw [he]
    exact h.1 y hy

lemma sortAndRank_score (l : List ScoredLocation) (x : ScoredLocation)
    (hx : x ∈ sortAndRank l) : ∃ y ∈ l, x.score = y.score := by
  unfold sortAndRank at hx
  obtain ⟨y, hy, he⟩ := rankAux_score 0 _ x hx
  exact ⟨y, (List.mem_insertionSort scoreGe).1 hy, he⟩

/-! ## Claim theorems -/

/-- C1: for every weather series that is present and has at least one
(valid) day, with precipitation sums, sunshine seconds and wind speeds
non-negative and precipitation probabilities in `[0,100]`, the composite
score produced by `calculateScores` lies in `[0,100]`, both before
(`totalScoreOf`) and after (`scorePoint`) rounding to one decimal place;
consequently every location scored by `calculateScores` has its `score` in
`[0,100]`. -/
theorem calculateScores_score_in_range :
    (∀ (lat lon : ℚ) (w : DailyWeather),
      0 < w.time.length →
      (∀ q, some q ∈ w.precipitation_sum → 0 ≤ q) →
      (∀ q, some q ∈ w.sunshine_duration → 0 ≤ q) →
      (∀ q, some q ∈ w.windspeed_10m_max → 0 ≤ q) →
      (∀ q, some q ∈ w.precipitation_probability_max → 0 ≤ q ∧ q ≤ 100) →
      (0 ≤ totalScoreOf w ∧ totalScoreOf w ≤ 100) ∧
        (0 ≤ (scorePoint lat lon w).score ∧ (scorePoint lat lon w).score ≤ 100)) ∧
    (∀ (pts : List WeatherPoint),
      (∀ p ∈ pts, ∀ w, p.weather = some w →
        0 < w.time.length ∧
        (∀ q, some q ∈ w.precipitation_sum → 0 ≤ q) ∧
        (∀ q, some q ∈ w.sunshine_duration → 0 ≤ q) ∧
        (∀ q, some q ∈ w.windspeed_10m_max → 0 ≤ q) ∧
        (∀ q, some q ∈ w.precipitation_probability_max → 0 ≤ q ∧ q ≤ 100)) →
      ∀ x ∈ calculateScores pts, 0 ≤ x.score ∧ x.score ≤ 100) := by
  have hb : ∀ (w : DailyWeather),
      (∀ q, some q ∈ w.precipitation_sum → 0 ≤ q) →
      (∀ q, some q ∈ w.sunshine_duration → 0 ≤ q) →
      (∀ q, some q ∈ w.windspeed_10m_max → 0 ≤ q) →
      (∀ q, some q ∈ w.precipitation_probability_max → 0 ≤ q ∧ q ≤ 100) →
      (0 ≤ totalScoreOf w ∧ totalScoreOf w ≤ 100) ∧
        (0 ≤ round1 (totalScoreOf w) ∧ round1 (totalScoreOf w) ≤ 100) := by
    intro w h1 h2 h3 h4
    have ht := totalScoreOf_bounds w h1 h2 h3 (fun q hq => (h4 q hq).1)
    exact ⟨ht, round1_bounds _ ht.1 ht.2⟩
  constructor
  · intro lat lon w _ h1 h2 h3 h4
    obtain ⟨ht, hr⟩ := hb w h1 h2 h3 h4
    exact ⟨ht, hr⟩
  · intro pts hp x hx
    obtain ⟨y, hy, he⟩ := sortAndRank_score _ x hx
    obtain ⟨p, hpm, hpe⟩ := List.mem_filterMap.1 hy
    obtain ⟨w, hw, hyw⟩ := Option.map_eq_some'.1 hpe
    obtain ⟨_, h1, h2, h3, h4⟩ := hp p hpm w hw
    obtain ⟨ht, hr⟩ := hb w h1 h2 h3 h4
    rw [he, ← hyw]
    exact hr

/-- Witness for C1 at the concrete one-day series `wDay`. -/
theorem calculateScores_score_in_range_witness :
    (0 ≤ totalScoreOf wDay ∧ totalScoreOf wDay ≤ 100) ∧
      (0 ≤ (scorePoint 48 16 wDay).score ∧ (scorePoint 48 16 wDay).score ≤ 100) :=
  calculateScores_score_in_range.1 48 16 wDay (by decide)
    (by intro q hq; simp [wDay] at hq; rw [hq]; norm_num)
    (by intro q hq; simp [wDay] at hq; rw [hq]; norm_num)
    (by intro q hq; simp [wDay] at hq; rw [hq]; norm_num)
    (by intro q hq; simp [wDay] at hq; rw [hq]; norm_num)

/-- C6: the aggregations of the scorer exclude missing entries rather than
treating them as zero: inserting a `null` day into a series changes neither
`sum` nor `average`, and in particular a series with one missing
`precipitationSum` entry is scored from the remaining valid days only. -/
theorem aggregation_excludes_missing :
    ∀ (l1 l2 : List (Option ℚ)) (w : DailyWeather),
      sum (l1 ++ none :: l2) = sum (l1 ++ l2) ∧
      average (l1 ++ none :: l2) = average (l1 ++ l2) ∧
      totalScoreOf { w with precipitation_sum := l1 ++ none :: l2 } =
        totalScoreOf { w with precipitation_sum := l1 ++ l2 } := by
  intro l1 l2 w
  have hs : sum (l1 ++ none :: l2) = sum (l1 ++ l2) := by
    unfold sum
    simp [List.filterMap_append]
  have ha : average (l1 ++ none :: l2) = average (l1 ++ l2) := by
    rw [average_def, average_def]
    simp [List.filterMap_append]
  refine ⟨hs, ha, ?_⟩
  unfold totalScoreOf rainAmountScoreOf avgRainPerDayOf totalRainOf rainChanceScoreOf
    avgRainChanceOf sunScoreOf avgSunHoursOf windScoreOf avgWindOf avgTempOf
  dsimp only
  rw [hs]

/-- C7: stable-sorting by score descending and assigning 1-based ranks is
idempotent: applying `sortAndRank` to its own output reproduces the same
element order and the same ranks. -/
theorem sortAndRank_idempotent :
    ∀ l : List ScoredLocation, sortAndRank (sortAndRank l) = sortAndRank l := by
  intro l
  unfold sortAndRank
  have hs : List.Sorted scoreGe (rankAux 0 (List.insertionSort scoreGe l)) :=
    rankAux_sorted 0 _ (List.sorted_insertionSort scoreGe l)
  rw [List.Sorted.insertionSort_eq hs]
  exact rankAux_idem 0 _

/-- C8: `calculateTempScore` is exactly the piecewise step function of
`|avgTemp − 22.5|` given in the spec, with the listed breakpoint values. -/
theorem calculateTempScore_is_step :
    (∀ t : ℚ, calculateTempScore t = tempScoreSpec t) ∧
    calculateTempScore (45/2) = 100 ∧ calculateTempScore 20 = 100 ∧
    calculateTempScore 25 = 100 ∧ calculateTempScore (31/2) = 70 ∧
    calculateTempScore (59/2) = 70 ∧ calculateTempScore 100 = 10 :=
  ⟨fun _ => rfl,
    by norm_num [calculateTempScore, abs_of_nonneg],
    by norm_num [calculateTempScore, abs_of_nonneg],
    by norm_num [calculateTempScore, abs_of_nonneg],
    by norm_num [calculateTempScore, abs_of_nonneg],
    by norm_num [calculateTempScore, abs_of_nonneg],
    by norm_num [calculateTempScore, abs_of_nonneg]⟩

/-- C10: `average` of a sequence with no valid entry is `0` rather than an
error, and a present series whose wind entries are all missing is still
scored, with the wind average taken as `0`. -/
theorem average_all_missing_zero :
    (∀ l : List (Option ℚ), (∀ x ∈ l, x = none) → average l = 0) ∧
    (∀ (p : WeatherPoint) (w : DailyWeather), p.weather = some w →
      (∀ x ∈ w.windspeed_10m_max, x = none) →
      (calculateScores [p]).length = 1 ∧ (scorePoint p.lat p.lon w).windSpeed = 0) := by
  have part1 : ∀ l : List (Option ℚ), (∀ x ∈ l, x = none) → average l = 0 := by
    intro l h
    rw [average_def]
    have hnil : l.filterMap id = [] := by
      rw [List.filterMap_eq_nil_iff]
      intro a ha
      rw [h a ha]
      rfl
    rw [hnil]
    norm_num
  refine ⟨part1, ?_⟩
  intro p w hw hwind
  have hav : avgWindOf w = 0 := by
    unfold avgWindOf
    exact part1 _ hwind
  have hws : (scorePoint p.lat p.lon w).windSpeed = 0 := by
    show round1 (avgWindOf w) = 0
    rw [hav]
    norm_num [round1, jsRound]
  refine ⟨?_, hws⟩
  unfold calculateScores sortAndRank
  rw [show ([p].filterMap (fun q => q.weather.map (fun v => scorePoint q.lat q.lon v)))
      = [scorePoint p.lat p.lon w] from by simp [hw]]
  rfl

/-- Witness for C10: a list of two missing entries averages to `0`, and the
point `pNoWind` (all wind entries missing) is still scored with wind `0`. -/
theorem average_all_missing_zero_witness :
    average [none, none] = 0 ∧
      (calculateScores [pNoWind]).length = 1 ∧
      (scorePoint pNoWind.lat pNoWind.lon wNoWind).windSpeed = 0 :=
  ⟨average_all_missing_zero.1 [none, none] (by decide),
    (average_all_missing_zero.2 pNoWind wNoWind rfl (by decide)).1,
    (average_all_missing_zero.2 pNoWind wNoWind rfl (by decide)).2⟩

unseal Rat.add Rat.mul Rat.sub Rat.inv in
/-- C3 (counterexample): the claim "among the unvisited candidates within
`maxTravelPerDayKm` the planner selects the candidate maximizing suitability,
and the day loop only terminates early when no candidate survives the
distance filter" is false on the code: here exactly one candidate survives
the filter (so the claim would select it), but its suitability
`0 + 0·30 − 20 = −20` does not beat the initial `bestScore = -1`
(src/app.js:2089), so `findNextBestLocation` returns `null`. -/
theorem findNextBestLocation_drops_low_suitability :
    survivors distPen ((0 : ℚ), (0 : ℚ)) [locZero] [] 100 = [(0, locZero)] ∧
    suitability distPen ((0 : ℚ), (0 : ℚ)) 100 (some ((5 : ℚ), (0 : ℚ))) locZero = -20 ∧
    findNextBestLocation distPen ((0 : ℚ), (0 : ℚ)) [locZero] [] 100
      (some ((5 : ℚ), (0 : ℚ))) = none :=
  ⟨by decide, by decide, by decide⟩

/-- C3 (amended): on each day the planner selects the earliest (in
score-descending order) unvisited candidate within `maxTravelPerDayKm` whose
suitability `score + ((maxTravel − d)/maxTravel)·30 − penalty` is maximal
among the surviving candidates — provided that maximum exceeds the initial
`bestScore` of `−1`; when no candidate survives the filter, or every
surviving candidate has suitability ≤ −1, it returns `none` and the day loop
terminates early.  Ties keep the earlier candidate (`find?` returns the first
maximum). -/
theorem findNextBestLocation_selects_first_max :
    ∀ (dist : Coord → Coord → ℚ) (currentPoint : Coord)
      (sortedSpots : List ScoredLocation) (visited : List ℕ) (maxTravel : ℚ)
      (previousLocation : Option Coord),
      findNextBestLocation dist currentPoint sortedSpots visited maxTravel
          previousLocation =
        (survivors dist currentPoint sortedSpots visited maxTravel).find?
          (selectPred
            (fun e => suitability dist currentPoint maxTravel previousLocation e.2)
            (survivors dist currentPoint sortedSpots visited maxTravel) (-1)) :=
  findNextBestLocation_eq_find

unseal Rat.add Rat.mul Rat.sub Rat.inv in
/-- C2 (counterexample): without an `explicitStart`, zero reachable
candidates from the very first evaluated day does NOT produce an empty
route: the highest-scoring seed stop is pushed before any reachability check
(src/app.js:2042-2049), so the result is a single-stop route. -/
theorem optimizeRoute_single_stop_when_unreachable :
    survivors distFar (coordOf locA) [locA, locB] [0] 100 = [] ∧
    optimizeRoute distFar [locA, locB] 100 3 none =
      some [{ day := 1, location := locA, distance := 0, idx := 0,
              weather := wEmpty }] :=
  ⟨by decide, by decide⟩

/-- C2 (amended): when an `explicitStart` is supplied and zero candidates
are reachable on the first evaluated day, `optimizeRoute` returns the empty
route (infeasibility signal).  Without an `explicitStart` the seed stop is
pushed unconditionally, and zero reachable candidates from the first
evaluated day (day 2) yields exactly the single-stop route consisting of the
seed — not an empty route. -/
theorem optimizeRoute_infeasible_routes :
    (∀ (dist : Coord → Coord → ℚ) (weatherData : List ScoredLocation)
      (maxTravelPerDay : ℚ) (totalDays : ℕ) (s : Coord),
      survivors dist s (List.insertionSort scoreGe weatherData) [] maxTravelPerDay = [] →
      optimizeRoute dist weatherData maxTravelPerDay totalDays (some s) = some []) ∧
    (∀ (dist : Coord → Coord → ℚ) (weatherData : List ScoredLocation)
      (maxTravelPerDay : ℚ) (totalDays : ℕ) (s0 : ScoredLocation)
      (rest : List ScoredLocation),
      List.insertionSort scoreGe weatherData = s0 :: rest →
      survivors dist (coordOf s0) (s0 :: rest) [0] maxTravelPerDay = [] →
      optimizeRoute dist weatherData maxTravelPerDay totalDays none =
        some [{ day := 1, location := s0, distance := 0, idx := 0,
                weather := s0.rawData }]) := by
  constructor
  · intro dist weatherData maxTravelPerDay totalDays s hsur
    have hloop : routeLoop dist (List.insertionSort scoreGe weatherData)
        maxTravelPerDay totalDays 1 [] [] s = [] := by
      cases totalDays with
      | zero => rfl
      | succ n =>
        have hnone := findNextBestLocation_eq_none dist s
          (List.insertionSort scoreGe weatherData) [] maxTravelPerDay none hsur
        have hunf : routeLoop dist (List.insertionSort scoreGe weatherData)
            maxTravelPerDay (n + 1) 1 [] [] s =
            if ([] : List RouteStop).length <
                (List.insertionSort scoreGe weatherData).length then
              match findNextBestLocation dist s
                (List.insertionSort scoreGe weatherData) [] maxTravelPerDay none with
              | none => []
              | some (i, c) =>
                routeLoop dist (List.insertionSort scoreGe weatherData)
                  maxTravelPerDay n 2
                  ([] ++ [{ day := 1, location := c,
                            distance := jsRound (dist s (coordOf c)),
                            idx := i, weather := c.rawData }])
                  (i :: []) (coordOf c)
            else [] := rfl
        rw [hunf, hnone]
        split <;> rfl
    have hgoal : optimizeRoute dist weatherData maxTravelPerDay totalDays (some s) =
        some (routeLoop dist (List.insertionSort scoreGe weatherData)
          maxTravelPerDay totalDays 1 [] [] s) := rfl
    rw [hgoal, hloop]
  · intro dist weatherData maxTravelPerDay totalDays s0 rest hsort hsur
    have hloop : routeLoop dist (s0 :: rest) maxTravelPerDay (totalDays - 1) 2
        [{ day := 1, location := s0, distance := 0, idx := 0, weather := s0.rawData }]
        [0] (coordOf s0) =
        [{ day := 1, location := s0, distance := 0, idx := 0,
           weather := s0.rawData }] := by
      cases htd : totalDays - 1 with
      | zero => rfl
      | succ n =>
        have hnone := findNextBestLocation_eq_none dist (coordOf s0) (s0 :: rest)
          [0] maxTravelPerDay (some (coordOf s0)) hsur
        have hunf : routeLoop dist (s0 :: rest) maxTravelPerDay (n + 1) 2
            [{ day := 1, location := s0, distance := 0, idx := 0,
               weather := s0.rawData }] [0] (coordOf s0) =
            if ([{ day := 1, location := s0, distance := 0, idx := 0,
                   weather := s0.rawData }] : List RouteStop).length <
                (s0 :: rest).length then
              match findNextBestLocation dist (coordOf s0) (s0 :: rest) [0]
                maxTravelPerDay (some (coordOf s0)) with
              | none =>
                [{ day := 1, location := s0, distance := 0, idx := 0,
                   weather := s0.rawData }]
              | some (i, c) =>
                routeLoop dist (s0 :: rest) maxTravelPerDay n 3
                  ([{ day := 1, location := s0, distance := 0, idx := 0,
                      weather := s0.rawData }] ++
                    [{ day := 2, location := c,
                       distance := jsRound (dist (coordOf s0) (coordOf c)),
                       idx := i, weather := c.rawData }])
                  (i :: [0]) (coordOf c)
            else
              [{ day := 1, location := s0, distance := 0, idx := 0,
                 weather := s0.rawData }] := rfl
        rw [hunf, hnone]
        split <;> rfl
    have hgoal : optimizeRoute dist weatherData maxTravelPerDay totalDays none =
        match List.insertionSort scoreGe weatherData with
        | [] => none
        | s0 :: rest =>
          some (routeLoop dist (s0 :: rest) maxTravelPerDay (totalDays - 1) 2
            [{ day := 1, location := s0, distance := 0, idx := 0,
               weather := s0.rawData }] [0] (coordOf s0)) := rfl
    rw [hgoal, hsort]
    exact congrArg some hloop

unseal Rat.add Rat.mul Rat.sub Rat.inv in
/-- Witness for C2 (amended), at a two-location set where every hop is
1000 km and the budget is 100 km. -/
theorem optimizeRoute_infeasible_routes_witness :
    optimizeRoute distFar [locA, locB] 100 3 (some (50, 50)) = some [] ∧
    optimizeRoute distFar [locA, locB] 100 3 none =
      some [{ day := 1, location := locA, distance := 0, idx := 0,
              weather := locA.rawData }] :=
  ⟨optimizeRoute_infeasible_routes.1 distFar [locA, locB] 100 3 (50, 50) (by decide),
   optimizeRoute_infeasible_routes.2 distFar [locA, locB] 100 3 locA [locB]
     (by decide) (by decide)⟩

/-- C9: a route built by `optimizeRoute` never revisits a location: the
indices of its stops (the values recorded in the `visited` set) are pairwise
distinct. -/
theorem optimizeRoute_no_revisit :
    ∀ (dist : Coord → Coord → ℚ) (weatherData : List ScoredLocation)
      (maxTravelPerDay : ℚ) (totalDays : ℕ) (startPoint : Option Coord)
      (r : List RouteStop),
      optimizeRoute dist weatherData maxTravelPerDay totalDays startPoint = some r →
      (r.map RouteStop.idx).Nodup := by
  intro dist weatherData maxTravelPerDay totalDays startPoint r h
  cases startPoint with
  | some s =>
    have hr : routeLoop dist (List.insertionSort scoreGe weatherData)
        maxTravelPerDay totalDays 1 [] [] s = r := Option.some.inj h
    rw [← hr]
    exact routeLoop_nodup dist _ maxTravelPerDay totalDays 1 [] [] s
      (by intro st hst; cases hst) (by simp)
  | none =>
    have hgoal : optimizeRoute dist weatherData maxTravelPerDay totalDays none =
        match List.insertionSort scoreGe weatherData with
        | [] => none
        | s0 :: rest =>
          some (routeLoop dist (s0 :: rest) maxTravelPerDay (totalDays - 1) 2
            [{ day := 1, location := s0, distance := 0, idx := 0,
               weather := s0.rawData }] [0] (coordOf s0)) := rfl
    rw [hgoal] at h
    cases hs : List.insertionSort scoreGe weatherData with
    | nil => rw [hs] at h; cases h
    | cons s0 rest =>
      rw [hs] at h
      have hr : routeLoop dist (s0 :: rest) maxTravelPerDay (totalDays - 1) 2
          [{ day := 1, location := s0, distance := 0, idx := 0,
             weather := s0.rawData }] [0] (coordOf s0) = r := Option.some.inj h
      rw [← hr]
      apply routeLoop_nodup
      · intro st hst
        rw [List.mem_singleton.1 hst]
        exact List.mem_cons_self _ _
      · simp

unseal Rat.add Rat.mul Rat.sub Rat.inv in
/-- Witness for C9: the two-day route built from `[locA, locB]` with the zero
distance function has distinct stop indices. -/
theorem optimizeRoute_no_revisit_witness : (routeAB.map RouteStop.idx).Nodup :=
  optimizeRoute_no_revisit distZero [locA, locB] 100 2 none routeAB (by decide)

unseal Rat.add Rat.mul Rat.sub Rat.inv in
/-- C4 (counterexample): for `gridSize = 5` the claim predicts
`round(√5)² = 2² = 4` lattice points, but the code's loop bound is the
UNROUNDED `Math.sqrt(5)` (the IEEE-754 double `sqrtFive`), so the loops run
`⌈√5⌉ = 3` times each and 9 points are returned. -/
theorem generateGridFromCenter_count_not_round :
    round (Real.sqrt 5) = 2 ∧
    (generateGridFromCenter 0 0 111 sqrtFive 1).length = 9 ∧ (9 : ℕ) ≠ 2 * 2 := by
  refine ⟨?_, ?_, by norm_num⟩
  · have h1 : (3 : ℝ) / 2 ≤ Real.sqrt 5 :=
      (Real.le_sqrt' (by norm_num)).2 (by norm_num)
    have h2 : Real.sqrt 5 < 5 / 2 :=
      (Real.sqrt_lt' (by norm_num)).2 (by norm_num)
    rw [round_eq, Int.floor_eq_iff]
    constructor
    · push_cast
      linarith
    · push_cast
      linarith
  · rw [grid_length]
    have hc : ⌈sqrtFive⌉₊ = 3 := by decide
    rw [hc]

/-- C4 (amended): `generateGridFromCenter` returns `⌈gridDim⌉₊²` points,
where `gridDim = Math.sqrt(gridSize)` is NOT rounded; in particular for a
perfect-square `gridSize = k·k` with `k ≥ 2` (where `Math.sqrt` is exactly
`k`) it returns exactly `gridSize` points, and the sums of their latitudes
and longitudes are `gridSize · center` — i.e. the coordinate means equal the
center exactly. -/
theorem generateGridFromCenter_lattice :
    (∀ (centerLat centerLon radiusKm gridDim cosCenterLat : ℚ),
      (generateGridFromCenter centerLat centerLon radiusKm gridDim
        cosCenterLat).length = ⌈gridDim⌉₊ * ⌈gridDim⌉₊) ∧
    (∀ (centerLat centerLon radiusKm cosCenterLat : ℚ) (k : ℕ), 2 ≤ k →
      (generateGridFromCenter centerLat centerLon radiusKm (k : ℚ)
        cosCenterLat).length = k * k ∧
      ((generateGridFromCenter centerLat centerLon radiusKm (k : ℚ)
        cosCenterLat).map GridPoint.lat).sum = (k : ℚ) * k * centerLat ∧
      ((generateGridFromCenter centerLat centerLon radiusKm (k : ℚ)
        cosCenterLat).map GridPoint.lon).sum = (k : ℚ) * k * centerLon) := by
  refine ⟨grid_length, ?_⟩
  intro centerLat centerLon radiusKm cosCenterLat k hk
  refine ⟨?_, grid_lat_sum centerLat centerLon radiusKm cosCenterLat k hk,
    grid_lon_sum centerLat centerLon radiusKm cosCenterLat k hk⟩
  rw [grid_length, Nat.ceil_natCast]

/-- Witness for C4 (amended), for the 2×2 lattice around `(10, 20)`. -/
theorem generateGridFromCenter_lattice_witness :
    (generateGridFromCenter 10 20 111 ((2 : ℕ) : ℚ) 1).length = 2 * 2 ∧
    ((generateGridFromCenter 10 20 111 ((2 : ℕ) : ℚ) 1).map GridPoint.lat).sum =
      ((2 : ℕ) : ℚ) * 2 * 10 ∧
    ((generateGridFromCenter 10 20 111 ((2 : ℕ) : ℚ) 1).map GridPoint.lon).sum =
      ((2 : ℕ) : ℚ) * 2 * 20 :=
  generateGridFromCenter_lattice.2 10 20 111 1 2 (by norm_num)

/-- C5 (counterexample): a `gridSize = 1` request (`gridDim = Math.sqrt(1) = 1`)
is NOT rejected by input validation: `generateGridFromCenter` returns one
grid point (in JS its coordinates are `NaN`, as the step divisor
`gridDim − 1` is zero and `0 · Infinity = NaN`), not an empty result, and no
error is raised anywhere (`handleSearch` performs no gridSize validation). -/
theorem gridDimOne_yields_one_point :
    (generateGridFromCenter 0 0 111 1 1).length = 1 ∧
    generateGridFromCenter 0 0 111 1 1 ≠ [] := by
  have h : (generateGridFromCenter 0 0 111 1 1).length = 1 := by
    rw [grid_length]
    norm_num
  refine ⟨h, ?_⟩
  intro hc
  rw [hc] at h
  cases h

/-- C5 (amended): the code performs no validation of the grid dimension: a
`gridDim = 1` request still produces exactly one grid point (with a zero
step divisor, `stepDenom 1 = 0`, which in JS makes the point's coordinates
`NaN`), while for `gridDim ≥ 2` the step divisor `gridDim − 1` is nonzero,
so no division by zero occurs. -/
theorem gridDim_below_two_not_validated :
    (∀ (centerLat centerLon radiusKm cosCenterLat : ℚ),
      (generateGridFromCenter centerLat centerLon radiusKm 1
        cosCenterLat).length = 1) ∧
    (∀ gridDim : ℚ, 2 ≤ gridDim → stepDenom gridDim ≠ 0) ∧
    stepDenom 1 = 0 := by
  refine ⟨?_, ?_, ?_⟩
  · intro centerLat centerLon radiusKm cosCenterLat
    rw [grid_length]
    norm_num
  · intro gridDim hg
    unfold stepDenom
    intro hc
    have hg1 : gridDim = 1 := by linarith
    rw [hg1] at hg
    norm_num at hg
  · unfold stepDenom
    norm_num

/-- Witness for C5 (amended), at `gridDim = 1` and `gridDim = 3`. -/
theorem gridDim_below_two_not_validated_witness :
    (generateGridFromCenter 7 8 222 1 (1/2)).length = 1 ∧ stepDenom 3 ≠ 0 :=
  ⟨gridDim_below_two_not_validated.1 7 8 222 (1/2),
   gridDim_below_two_not_validated.2.1 3 (by norm_num)⟩

end WeatherChaser
